import Mathlib

/-!
Verification development for the Render Job Orchestrator repository.

The repository consists of successive iterations of a Node.js render
server.  The versions relevant to the claims are:

* `server.js`, first document (`processNextJob`, `getSafeUrl`,
  `updateJobStatus`, `runFFmpeg`) — modelled below at top level and in
  namespace `ServerV1`;
* `server.js`, second document (`processNextJob` with the `a=0` concat
  filter and `ensureFullUrl` that strips double-nested URLs before the
  `startsWith('http')` test) — namespace `ServerV2`;
* `src/unnamed/part_005`, first document (`processJob` with the inline
  per-clip `anullsrc`/`amix` filter graph, the 30-attempt readiness loop,
  and `ensureFullUrl`) — namespace `P5A`;
* `src/unnamed/part_005`, second document (`processJob` with `hasAudio`
  probing and the two-step standardize/stitch pipeline, and the
  100-attempt readiness loop requiring `scenes.length > 1`) — namespace
  `P5B`.

JavaScript strings are modelled as Lean `String`s (the inputs of interest
are ASCII).  `encodeURI`/`decodeURI` are modelled character-by-character:
`decodeURI` decodes `%XY` escapes of non-reserved ASCII characters and
leaves reserved-character escapes, multi-byte (≥ 0x80) escapes and
malformed escapes in place (real `decodeURI` raises `URIError` on a
malformed escape; no claim depends on that case); `encodeURI` keeps the
unreserved and reserved URI characters and percent-encodes the UTF-8
bytes of everything else with upper-case hex digits.
-/

/-- Numeric value of a hex digit, accepting both cases (as `decodeURI` does). -/
def hexVal? (c : Char) : Option Nat :=
  if '0' ≤ c ∧ c ≤ '9' then some (c.toNat - 48)
  else if 'A' ≤ c ∧ c ≤ 'F' then some (c.toNat - 55)
  else if 'a' ≤ c ∧ c ≤ 'f' then some (c.toNat - 87)
  else none

/-- The URI characters `decodeURI` refuses to unescape and `encodeURI` leaves alone:
`; / ? : @ & = + $ , #`. -/
def uriReserved (c : Char) : Bool :=
  c ∈ [';', '/', '?', ':', '@', '&', '=', '+', '$', ',', '#']

/-- The characters `encodeURI` leaves unescaped besides the reserved ones:
ASCII letters, digits, and `- _ . ! ~ * ' ( )`. -/
def uriUnescaped (c : Char) : Bool :=
  c.isAlpha || c.isDigit || c ∈ ['-', '_', '.', '!', '~', '*', '(', ')'] ||
    c == Char.ofNat 39

/-- Model of JavaScript `decodeURI` on a character list; see the module header. -/
def decodeURIList : List Char → List Char
  | [] => []
  | '%' :: c1 :: c2 :: rest =>
    match hexVal? c1, hexVal? c2 with
    | some h1, some h2 =>
      let b := 16 * h1 + h2
      if b < 128 then
        if uriReserved (Char.ofNat b) then '%' :: c1 :: c2 :: decodeURIList rest
        else Char.ofNat b :: decodeURIList rest
      else '%' :: c1 :: c2 :: decodeURIList rest
    | _, _ => '%' :: c1 :: c2 :: decodeURIList rest
  | c :: rest => c :: decodeURIList rest

/-- Upper-case hex digit of a value below 16 (`encodeURI` emits upper case). -/
def toHexDigit (n : Nat) : Char :=
  if n < 10 then Char.ofNat (48 + n) else Char.ofNat (55 + n)

/-- UTF-8 bytes of a code point. -/
def utf8Bytes (n : Nat) : List Nat :=
  if n < 0x80 then [n]
  else if n < 0x800 then [0xC0 + n / 64, 0x80 + n % 64]
  else if n < 0x10000 then
    [0xE0 + n / 4096, 0x80 + (n / 64) % 64, 0x80 + n % 64]
  else
    [0xF0 + n / 262144, 0x80 + (n / 4096) % 64, 0x80 + (n / 64) % 64, 0x80 + n % 64]

/-- Percent-encoding of one byte, upper-case hex. -/
def pctEncodeByte (b : Nat) : List Char :=
  ['%', toHexDigit (b / 16), toHexDigit (b % 16)]

/-- Model of JavaScript `encodeURI` on a character list; see the module header. -/
def encodeURIList : List Char → List Char
  | [] => []
  | c :: rest =>
    (if uriReserved c || uriUnescaped c then [c]
     else (utf8Bytes c.toNat).flatMap pctEncodeByte) ++ encodeURIList rest

/-- Model of JavaScript `decodeURI`. -/
def decodeURI (s : String) : String := ⟨decodeURIList s.data⟩

/-- Model of JavaScript `encodeURI`. -/
def encodeURI (s : String) : String := ⟨encodeURIList s.data⟩

/-- JavaScript `s.startsWith(pre)`. -/
def jsStartsWith (s pre : String) : Bool := pre.data.isPrefixOf s.data

/-- All indexes at which `pat` occurs in `s`. -/
def occIndexes (s pat : String) : List Nat :=
  (List.range (s.data.length + 1)).filter (fun i => pat.data.isPrefixOf (s.data.drop i))

/-- JavaScript `s.includes(pat)`. -/
def jsIncludes (s pat : String) : Bool := !(occIndexes s pat).isEmpty

/-- JavaScript `s.lastIndexOf(pat)`: the largest occurrence index, or `-1`. -/
def jsLastIndexOf (s pat : String) : Int :=
  match (occIndexes s pat).getLast? with
  | some i => (i : Int)
  | none => -1

/-- JavaScript `s.substring(i)` for `0 ≤ i`. -/
def jsSubstringFrom (s : String) (i : Nat) : String := ⟨s.data.drop i⟩

/-- JavaScript `s.substring(0, e)`. -/
def jsSubstringTo (s : String) (e : Nat) : String := ⟨s.data.take e⟩

/-- JavaScript `s.replace(/^\/+/, '')`: strip leading forward slashes. -/
def stripLeadingSlashes : List Char → List Char
  | '/' :: rest => stripLeadingSlashes rest
  | l => l

/-- The double-nesting test of `ensureFullUrl` (`part_005`, first document, line 24):
`str.includes('https://') && str.lastIndexOf('https://') > 0`. -/
def doubleNested (s : String) : Bool :=
  jsIncludes s "https://" && decide (jsLastIndexOf s "https://" > 0)

/-- `ensureFullUrl` from `part_005`, first document, lines 20–30.  `input` is an
`Option String` (`none` for JavaScript `null`/`undefined`); the JavaScript
falsy test `!input` also rejects the empty string, and the code further
rejects the literal string `"null"`.  `supabaseUrl` stands for the
`SUPABASE_URL` environment constant. -/
def ensureFullUrl (supabaseUrl : String) (input : Option String) (bucket : String) :
    Option String :=
  match input with
  | none => none
  | some s =>
    if s == "null" || s == "" then none
    else if jsStartsWith s "http" then
      let s2 :=
        if doubleNested s then jsSubstringFrom s (jsLastIndexOf s "https://").toNat
        else s
      some (encodeURI (decodeURI s2))
    else
      some (supabaseUrl ++ "/storage/v1/object/public/" ++ bucket ++ "/" ++
        (⟨stripLeadingSlashes s.data⟩ : String))

/-- `getSafeUrl` from `server.js`, first document, lines 29–37: absolute inputs
are returned `encodeURI`-encoded, bare names are prefixed with the
`generated-content` bucket path.  `!input` rejects `null` and the empty
string. -/
def getSafeUrl (supabaseUrl : String) (input : Option String) : Option String :=
  match input with
  | none => none
  | some s =>
    if s == "" then none
    else if jsStartsWith s "http" then some (encodeURI s)
    else
      some (encodeURI (supabaseUrl ++ "/storage/v1/object/public/generated-content/" ++ s))

namespace ServerV2

/-- `ensureFullUrl` from `server.js`, second document, lines 202–210: this
iteration applies the double-nesting repair before the `startsWith('http')`
test, and encodes the composed bucket URL as well. -/
def ensureFullUrl (supabaseUrl : String) (input : Option String) (bucket : String) :
    Option String :=
  match input with
  | none => none
  | some s =>
    if s == "" then none
    else
    let s1 :=
      if doubleNested s then jsSubstringFrom s (jsLastIndexOf s "https://").toNat
      else s
    if jsStartsWith s1 "http" then some (encodeURI (decodeURI s1))
    else
      some (encodeURI (supabaseUrl ++ "/storage/v1/object/public/" ++ bucket ++ "/" ++
        (⟨stripLeadingSlashes s1.data⟩ : String)))

end ServerV2

/-!
## Error taxonomy

The fatal errors a `processJob`/`processNextJob` run can throw, with the
exact message strings the source constructs.  The structured constructors
model the distinct error kinds; `message` renders what `e.message` would
carry into the `FAILED` status write.
-/

/-- The fatal error kinds thrown by the orchestrator iterations. -/
inductive JobError where
  /-- `part_005`, first document, line 70: the readiness loop expired. -/
  | timedOutWaitingScenes
  /-- `part_005`, first document, line 89: no clip at all was materialized. -/
  | noScenes
  /-- `part_005`, first document, line 122: the encoder exited non-zero. -/
  | ffmpegExit (code : Nat)
  /-- `server.js`, first document, line 153: the music download returned null. -/
  | musicUnavailable
  deriving DecidableEq

/-- The `e.message` string of each error, as constructed by the source. -/
def JobError.message : JobError → String
  | .timedOutWaitingScenes => "Timed out waiting for scenes in script_data"
  | .noScenes => "No video scenes found to stitch."
  | .ffmpegExit code => "FFmpeg error " ++ toString code
  | .musicUnavailable => "Could not download background music from music_tracks table."

/-- The encoding-failure kind (non-zero encoder exit). -/
def JobError.isEncodingFailure : JobError → Bool
  | .ffmpegExit _ => true
  | _ => false

/-- The download-failure kinds (a mandatory asset could not be materialized). -/
def JobError.isDownloadFailure : JobError → Bool
  | .noScenes => true
  | .musicUnavailable => true
  | _ => false

/-- Whether an `Except` value is a success. -/
def exceptOk {ε α : Type} : Except ε α → Bool
  | .ok _ => true
  | .error _ => false

/-!
## Job records, manifests and the readiness gates
-/

/-- One element of the manifest's `scenes` array; `video_url` is its resolved
media reference (`none` for a missing field, and the JavaScript truthiness
tests also reject the empty string). -/
structure Scene where
  video_url : Option String
  deriving DecidableEq

/-- The parsed `script_data` payload, as far as the readiness gates inspect
it: the `scenes` field may be absent (`none`) or an array. -/
structure Manifest where
  scenes : Option (List Scene)
  deriving DecidableEq

/-- A `story_script` row as read by the readiness loops: `script_data` may be
null.  (The payload being serialized text or structured data is immaterial
after parsing; we model the parsed value.) -/
structure JobRecord where
  script_data : Option Manifest
  deriving DecidableEq

/-- JavaScript truthiness of an optional string field: `null`/`undefined` and
`""` are falsy. -/
def truthyStr : Option String → Bool
  | none => false
  | some s => !(s == "")

namespace P5A

/-- The per-attempt readiness check of `part_005`, first document, lines
56–63: `data && data.script_data` and then `parsed.scenes &&
parsed.scenes.length > 0`.  The resolved media references of the scenes are
not inspected. -/
def sceneReady (rec : Option JobRecord) : Bool :=
  match rec with
  | none => false
  | some r =>
    match r.script_data with
    | none => false
    | some m =>
      match m.scenes with
      | none => false
      | some l => decide (l.length > 0)

/-- The retry bound of the readiness loop (`while (retries < 30)`). -/
def maxAttempts : Nat := 30

/-- The polling loop of `part_005`, first document, lines 52–68, started at
read index `i` with `rem` attempts remaining.  `store k` is the job record
the `k`-th read observes.  Returns the record found (if any), the number of
reads performed, and the number of 4000 ms sleeps performed.  The loop
breaks before sleeping when the check passes, and sleeps after every failed
attempt. -/
def pollLoop (store : Nat → Option JobRecord) : Nat → Nat → Option JobRecord × Nat × Nat
  | _, 0 => (none, 0, 0)
  | i, rem + 1 =>
    if sceneReady (store i) then (store i, 1, 0)
    else
      let r := pollLoop store (i + 1) rem
      (r.1, r.2.1 + 1, r.2.2 + 1)

/-- `awaitReadiness`: the loop from read index 0 with the full budget;
line 70 turns an expired loop (`job` still null) into the timeout error. -/
def awaitReadiness (store : Nat → Option JobRecord) (attempts : Nat) :
    Except JobError JobRecord :=
  match (pollLoop store 0 attempts).1 with
  | some r => .ok r
  | none => .error .timedOutWaitingScenes

/-- The `catch` block of `part_005`, first document, lines 143–145: the job
row is updated with `status: 'FAILED'` and the raw, untruncated
`e.message`; no progress value is written. -/
structure FailWrite where
  status : String
  error_message : String
  deriving DecidableEq

/-- The failure write for a caught error `e`: `{ status: 'FAILED',
error_message: e.message }`. -/
def catchUpdate (msg : String) : FailWrite :=
  { status := "FAILED", error_message := msg }

/-- The asset-materialization phase of `part_005`, first document, lines
75–92, as a function of the individual fetch outcomes (`downloadAsset`
returns null on any fetch failure).  The logo path and each scene path are
appended *only if present*; the job is rejected only when the combined
clip list is empty; the music outcome is never checked. -/
def assetPhase (logoFetch : Option String) (sceneFetches : List (Option String))
    (musicFetch : Option String) : Except JobError (List String × Option String) :=
  let videoPaths := logoFetch.toList ++ sceneFetches.filterMap id
  if videoPaths.length = 0 then .error .noScenes
  else .ok (videoPaths, musicFetch)

end P5A

namespace P5B

/-- The per-attempt readiness check of `part_005`, second document, line 246:
`parsed && parsed.scenes && parsed.scenes.length > 1 &&
parsed.scenes.every(s => s.video_url)`. -/
def sceneReady (m : Option Manifest) : Bool :=
  match m with
  | none => false
  | some mm =>
    match mm.scenes with
    | none => false
    | some l => decide (l.length > 1) && l.all (fun s => truthyStr s.video_url)

end P5B

/-- The render-ready invariant in the words of the specification: the parsed
`scenes` sequence is non-empty and every element has a non-empty resolved
media reference.  This definition follows the spec's words and is compared
against the gates implemented in the source. -/
def specRenderReady (m : Manifest) : Bool :=
  match m.scenes with
  | none => false
  | some l => !l.isEmpty && l.all (fun s => truthyStr s.video_url)

/-- The number of scenes of a manifest (0 when the field is absent). -/
def scenesCount (m : Manifest) : Nat := (m.scenes.getD []).length

namespace ServerV1

/-- The row update performed by `updateJobStatus` (`server.js`, first
document, lines 63–72): the progress number is stored as a string, and the
error message is truncated to 500 characters — but the JavaScript
truthiness test `errorMsg ? errorMsg.substring(0, 500) : null` stores null
for an *empty* message as well as for an absent one. -/
structure JobUpdate where
  status : String
  progress_percentage : String
  error_message : Option String
  final_video_url : Option String
  deriving DecidableEq

/-- `updateJobStatus(scriptId, status, progress, errorMsg, videoUrl)`'s
payload. -/
def updateJobStatus (status : String) (progress : Nat) (errorMsg : Option String)
    (videoUrl : Option String) : JobUpdate :=
  { status := status
    progress_percentage := toString progress
    error_message :=
      match errorMsg with
      | some m => if m == "" then none else some (jsSubstringTo m 500)
      | none => none
    final_video_url := videoUrl }

/-- The asset phase of `server.js`, first document, lines 149–153: the logo
fetch outcome is accepted either way, but a null music path throws
(`if (!mPath) throw ...`). -/
def assetPhase (logoFetch musicFetch : Option String) :
    Except JobError (Option String × String) :=
  match musicFetch with
  | none => .error .musicUnavailable
  | some m => .ok (logoFetch, m)

/-- The `(status, progress)` write sequence `processNextJob` (`server.js`,
first document, lines 109–174) performs for one claimed job, as a function
of which phases succeed: the claim write is `('PROCESSING_RENDER', 10)`;
a failure anywhere in the resolve/download phase (including the mandatory
music check) jumps to the catch, which writes `('FAILED', 0)`; otherwise
`('PROCESSING_RENDER', 50)` precedes the encode, whose failure (or the
upload's) also writes `('FAILED', 0)`; full success ends with
`('RENDERING_COMPLETE', 100)`. -/
def writes (downloadOk encodeOk publishOk : Bool) : List (String × Nat) :=
  ("PROCESSING_RENDER", 10) ::
    (if downloadOk then
      ("PROCESSING_RENDER", 50) ::
        (if encodeOk then
          (if publishOk then [("RENDERING_COMPLETE", 100)] else [("FAILED", 0)])
         else [("FAILED", 0)])
     else [("FAILED", 0)])

end ServerV1

/-- `true` when consecutive elements never decrease. -/
def nondecreasing : List Nat → Bool
  | [] => true
  | [_] => true
  | a :: b :: t => decide (a ≤ b) && nondecreasing (b :: t)

/-!
## Filter-graph pads and the compiled programs

The source builds `-filter_complex` strings by concatenating fragments with
interpolated clip indexes.  Pads are modelled structurally: `PadName`
enumerates the pad labels the fragments write and read, and `label`
serializes each to the exact text the source interpolates.  A `FilterStmt`
records which pads one graph statement consumes and produces together with
the statement's text with the pad brackets removed at the boundaries.
-/

/-- Video or audio. -/
inductive PadKind where
  | video
  | audio
  deriving DecidableEq

/-- The pad labels occurring in the compiled filter graphs: `rawV i`/`rawA i`
are the raw input pads `i:v`/`i:a`; the rest are the labels the graph
statements declare (`v{i}`, `a{i}_silent`, `a{i}`, `v_out`, `a_out`,
`final_a`). -/
inductive PadName where
  | rawV (i : Nat)
  | rawA (i : Nat)
  | v (i : Nat)
  | aSilent (i : Nat)
  | a (i : Nat)
  | vOut
  | aOut
  | finalA
  deriving DecidableEq

/-- The text of a pad label as interpolated by the source. -/
def PadName.label : PadName → String
  | .rawV i => toString i ++ ":v"
  | .rawA i => toString i ++ ":a"
  | .v i => "v" ++ toString i
  | .aSilent i => "a" ++ toString i ++ "_silent"
  | .a i => "a" ++ toString i
  | .vOut => "v_out"
  | .aOut => "a_out"
  | .finalA => "final_a"

/-- The stream kind a pad carries. -/
def PadName.kind : PadName → PadKind
  | .rawV _ => .video
  | .v _ => .video
  | .vOut => .video
  | _ => .audio

/-- One statement of a compiled filter graph. -/
structure FilterStmt where
  consumes : List PadName
  produces : List PadName
  text : String
  deriving DecidableEq

/-- A pad is consumed somewhere in the program. -/
def consumedIn (prog : List FilterStmt) (p : PadName) : Bool :=
  prog.any (fun st => p ∈ st.consumes)

/-- The terminal pads of a program: pads some statement produces that no
statement consumes. -/
def terminalPads (prog : List FilterStmt) : List PadName :=
  (prog.flatMap FilterStmt.produces).filter (fun p => !consumedIn prog p)

/-- The terminal pads of a given kind. -/
def terminalPadsOfKind (prog : List FilterStmt) (k : PadKind) : List PadName :=
  (terminalPads prog).filter (fun p => p.kind == k)

namespace P5A

/-- The per-clip statements of `part_005`, first document, lines 100–101: the
scale/pad/fps normalization writing `v{idx}`, the (misused) `anullsrc`
fragment writing `a{idx}_silent` from `idx:a`, and the one-input `amix`
writing `a{idx}`. -/
def clipStmts (idx : Nat) : List FilterStmt :=
  [ { consumes := [.rawV idx]
      produces := [.v idx]
      text := "scale=1280:720:force_original_aspect_ratio=decrease,pad=1280:720:(ow-iw)/2:(oh-ih)/2,setsar=1,fps=25,format=yuv420p" }
  , { consumes := [.rawA idx]
      produces := [.aSilent idx]
      text := "anullsrc=r=44100:cl=stereo" }
  , { consumes := [.rawA idx, .aSilent idx]
      produces := [.a idx]
      text := "amix=inputs=1:duration=first" } ]

/-- The concat statement of lines 104–106: all `v{i}` then all `a{i}` feed
`concat=n=N:v=1:a=1[v_out][a_out]`. -/
def concatStmt (n : Nat) : FilterStmt :=
  { consumes := (List.range n).map PadName.v ++ (List.range n).map PadName.a
    produces := [.vOut, .aOut]
    text := "concat=n=" ++ toString n ++ ":v=1:a=1" }

/-- The music-mix statement of line 111: `[a_out][N:a]amix=inputs=2:duration=first[final_a]`. -/
def mixStmt (n : Nat) : FilterStmt :=
  { consumes := [.aOut, .rawA n]
    produces := [.finalA]
    text := "amix=inputs=2:duration=first" }

/-- The compiled filter program of `part_005`, first document, lines 96–117,
for `n` materialized clips, with the mix statement appended exactly when a
music path is present. -/
def filterProgram (n : Nat) (music : Bool) : List FilterStmt :=
  (List.range n).flatMap clipStmts ++ [concatStmt n] ++ (if music then [mixStmt n] else [])

/-- The pads passed to `-map` (lines 112 and 114): `[v_out]` plus `[final_a]`
with music, `[v_out]` plus `[a_out]` without. -/
def mapPads (music : Bool) : List PadName :=
  if music then [.vOut, .finalA] else [.vOut, .aOut]

end P5A

namespace ServerV2

/-- The per-clip statement of `server.js`, second document, line 281: only the
video normalization writing `v{idx}`; this iteration emits no audio
statements at all. -/
def clipStmts (idx : Nat) : List FilterStmt :=
  [ { consumes := [.rawV idx]
      produces := [.v idx]
      text := "scale=1280:720:force_original_aspect_ratio=decrease,pad=1280:720:(ow-iw)/2:(oh-ih)/2,setsar=1,fps=25,format=yuv420p" } ]

/-- The concat statement of line 285: `concat=n=N:v=1:a=0[v_out]` — video
only. -/
def concatStmt (n : Nat) : FilterStmt :=
  { consumes := (List.range n).map PadName.v
    produces := [.vOut]
    text := "concat=n=" ++ toString n ++ ":v=1:a=0" }

/-- The compiled filter program of `server.js`, second document, lines
277–285; the presence of music changes only the `-map` arguments, not the
graph. -/
def filterProgram (n : Nat) : List FilterStmt :=
  (List.range n).flatMap clipStmts ++ [concatStmt n]

/-- The pads mapped to the output (lines 291 and 293): with music, `[v_out]`
and the raw music stream `N:a`; without music, `[v_out]` alone. -/
def mapPads (n : Nat) (music : Bool) : List PadName :=
  if music then [.vOut, .rawA n] else [.vOut]

end ServerV2

namespace P5B

/-!
### The per-clip standardize step of `part_005`, second document

Lines 271–290: every raw clip is re-encoded to a `.ts` segment.  The
command always adds the clip and a lavfi `anullsrc` source as inputs 0 and
1; when the `ffprobe`-based `hasAudio` check found an audio stream, the
filter mixes it with the silent source; when it found none, the command
maps the normalized video pad `[v]` and the silent source `1:a` directly.
`-shortest` ends the output at the shortest mapped stream, and the
`anullsrc` source is unbounded, so the synthesized audio is trimmed to the
clip's visual duration.
-/

/-- Stream durations: a finite number of time units, or unbounded (the lavfi
`anullsrc` source). -/
inductive Dur where
  | finite (n : Nat)
  | unbounded
  deriving DecidableEq

/-- The shorter of two durations (the semantics of `-shortest`). -/
def Dur.minD : Dur → Dur → Dur
  | .unbounded, d => d
  | d, .unbounded => d
  | .finite x, .finite y => .finite (min x y)

/-- Where an output stream of the standardize command comes from. -/
inductive StreamSrc where
  | clipVideo
  | silentAudio
  | mixedAudio
  deriving DecidableEq

/-- One stream of the produced `.ts` segment. -/
structure OutStream where
  kind : PadKind
  dur : Dur
  src : StreamSrc
  deriving DecidableEq

/-- The argument list built for one clip (lines 275–287), with `inPath` the
raw clip path, `outP` the segment path and `audioFound` the `hasAudio`
probe result. -/
def standardizeArgs (inPath outP : String) (audioFound : Bool) : List String :=
  ["-i", inPath, "-f", "lavfi", "-i", "anullsrc=r=44100:cl=stereo"] ++
    (if audioFound then
      ["-filter_complex",
        "[0:v]scale=1280:720:force_original_aspect_ratio=decrease,pad=1280:720:(ow-iw)/2:(oh-ih)/2,setsar=1,fps=25,format=yuv420p[v];[0:a][1:a]amix=inputs=2:duration=first[a]"]
     else
      ["-filter_complex",
        "[0:v]scale=1280:720:force_original_aspect_ratio=decrease,pad=1280:720:(ow-iw)/2:(oh-ih)/2,setsar=1,fps=25,format=yuv420p[v]",
        "-map", "[v]", "-map", "1:a"]) ++
    ["-c:v", "libx264", "-preset", "ultrafast", "-c:a", "aac", "-shortest", "-y", outP]

/-- The streams of the segment the standardize command produces for a clip of
visual duration `clipDur`.  Without a clip audio track, the mapped streams
are the normalized clip video (duration `clipDur`) and the unbounded
silent source, and `-shortest` trims every stream to the shortest mapped
one.  With a clip audio track, the mix (`duration=first`) follows the clip
audio, which the source treats as co-extensive with the clip. -/
def standardizeStreams (clipDur : Nat) (audioFound : Bool) : List OutStream :=
  if audioFound then
    let streams : List OutStream :=
      [ { kind := .video, dur := .finite clipDur, src := .clipVideo }
      , { kind := .audio, dur := .finite clipDur, src := .mixedAudio } ]
    let total := (streams.map OutStream.dur).foldr Dur.minD .unbounded
    streams.map (fun st => { st with dur := total })
  else
    let streams : List OutStream :=
      [ { kind := .video, dur := .finite clipDur, src := .clipVideo }
      , { kind := .audio, dur := .unbounded, src := .silentAudio } ]
    let total := (streams.map OutStream.dur).foldr Dur.minD .unbounded
    streams.map (fun st => { st with dur := total })

/-- The pads the stitch-stage concat consumes from segment `idx` (line 297:
`[idx:v][idx:a]` per segment). -/
def concatSegmentPads (idx : Nat) : List PadName :=
  [.rawV idx, .rawA idx]

end P5B

/-!
## The single-flight guard of `processJob`
-/

/-- The observable effect of one `processJob(scriptId)` invocation
(`part_005`, first document, lines 47–49 and 146–149; likewise `server.js`,
third document, lines 394–396 and 497–499) on the in-memory `activeJobs`
set and the Job Store.  `active` is the set on entry; `bodyOps` names the
store operations the body would perform, depending on whether the body
succeeds; `succeeded` is the body's outcome.  A falsy id (`none` or the
empty string) or an id already in the set returns before any store access;
otherwise the id is added, the body runs (its `catch` also only touches
the store), and the `finally` block removes the id. -/
structure RunTrace where
  storeOps : List String
  duringBody : Finset String
  finalActive : Finset String
  deriving DecidableEq

/-- One `processJob` invocation's trace. -/
def processJobRun (active : Finset String) (scriptId : Option String)
    (bodyOps : Bool → List String) (succeeded : Bool) : RunTrace :=
  match scriptId with
  | none => { storeOps := [], duringBody := active, finalActive := active }
  | some id =>
    if id == "" || decide (id ∈ active) then
      { storeOps := [], duringBody := active, finalActive := active }
    else
      let during := insert id active
      { storeOps := bodyOps succeeded, duringBody := during,
        finalActive := during.erase id }

/-!
## Theorems
-/

/-- Unfolding of `consumedIn` into an existential. -/
theorem consumedIn_iff (prog : List FilterStmt) (p : PadName) :
    consumedIn prog p = true ↔ ∃ st ∈ prog, p ∈ st.consumes := by
  simp [consumedIn, List.any_eq_true]

/-- Claim C10: an invocation of `processJob(id)` with an id already in the
in-memory active set (or a falsy id) returns immediately with no Job Store
operations and the set unchanged; otherwise the id is inserted for the
duration of the body and removed when the invocation ends, on success and
failure alike, so the set is restored to its entry value. -/
theorem processJob_single_flight (active : Finset String) (id : String)
    (bodyOps : Bool → List String) (succeeded : Bool) :
    processJobRun active none bodyOps succeeded =
      { storeOps := [], duringBody := active, finalActive := active } ∧
    processJobRun active (some id) bodyOps succeeded =
      (if id == "" || decide (id ∈ active) then
        { storeOps := [], duringBody := active, finalActive := active }
       else
        { storeOps := bodyOps succeeded, duringBody := insert id active,
          finalActive := active }) := by
  refine ⟨rfl, ?_⟩
  cases hb : (id == "" || decide (id ∈ active)) with
  | true => simp [processJobRun, hb]
  | false =>
    have hmem : id ∉ active := by
      have h2 := (Bool.or_eq_false_iff.mp hb).2
      simpa using h2
    simp [processJobRun, hb, Finset.erase_insert hmem]

/-- Claim C2: for a video input whose audio probe reports no audio track, the
standardize command of `part_005` (second document) adds the lavfi
`anullsrc` silent source as a second input, maps the normalized video pad
and the silent source, and ends the segment at the shortest mapped stream,
so the produced segment has exactly one video stream and one synthesized
audio stream of the same duration as the clip's visual content; the stitch
concat then consumes exactly one video and one audio pad per segment. -/
theorem silent_audio_completion (d : Nat) (inPath outP : String) (idx : Nat) :
    P5B.standardizeStreams d false =
      [ { kind := .video, dur := .finite d, src := .clipVideo }
      , { kind := .audio, dur := .finite d, src := .silentAudio } ] ∧
    ((P5B.standardizeStreams d false).filter (fun st => st.kind == .video)).length = 1 ∧
    ((P5B.standardizeStreams d false).filter (fun st => st.kind == .audio)).length = 1 ∧
    (P5B.standardizeArgs inPath outP false)[5]? = some "anullsrc=r=44100:cl=stereo" ∧
    (P5B.standardizeArgs inPath outP false)[8]? = some "-map" ∧
    (P5B.standardizeArgs inPath outP false)[9]? = some "[v]" ∧
    (P5B.standardizeArgs inPath outP false)[10]? = some "-map" ∧
    (P5B.standardizeArgs inPath outP false)[11]? = some "1:a" ∧
    (P5B.standardizeArgs inPath outP false)[18]? = some "-shortest" ∧
    P5B.concatSegmentPads idx = [.rawV idx, .rawA idx] ∧
    (P5B.concatSegmentPads idx).map PadName.kind = [.video, .audio] := by
  refine ⟨rfl, rfl, rfl, ?_, ?_, ?_, ?_, ?_, ?_, rfl, rfl⟩ <;> rfl

/-- Claim C3 (counterexample): in `part_005`'s `processJob`, a scene clip
whose fetch fails is silently skipped — here the only scene's fetch fails
yet the phase succeeds with just the logo clip, where the claim requires a
transition to Failed; and in `server.js`'s `processNextJob`, a music fetch
failure is fatal, where the claim says a music fetch failure never fails
the job. -/
theorem optional_mandatory_asset_cex :
    P5A.assetPhase (some "/tmp/logo_1.mp4") [none] none =
      .ok (["/tmp/logo_1.mp4"], none) ∧
    ServerV1.assetPhase (some "/tmp/logo_1.mp4") none = .error .musicUnavailable := by
  exact ⟨rfl, rfl⟩

/-- Claim C3 (amended): in `part_005`'s `processJob`, the asset phase fails
exactly when no clip at all (neither the logo nor any scene) was
materialized — an individual scene fetch failure is skipped, and the music
outcome never affects success; in `server.js`'s `processNextJob`, the
phase fails exactly when the music fetch fails, while a logo fetch failure
is tolerated. -/
theorem optional_asset_degradation (logoFetch musicFetch musicFetch2 : Option String)
    (sceneFetches : List (Option String)) :
    exceptOk (P5A.assetPhase logoFetch sceneFetches musicFetch) =
      !(logoFetch.toList ++ sceneFetches.filterMap id).isEmpty ∧
    exceptOk (P5A.assetPhase logoFetch sceneFetches musicFetch) =
      exceptOk (P5A.assetPhase logoFetch sceneFetches musicFetch2) ∧
    exceptOk (ServerV1.assetPhase logoFetch musicFetch) = musicFetch.isSome := by
  refine ⟨?_, ?_, ?_⟩
  · unfold P5A.assetPhase
    cases h : logoFetch.toList ++ sceneFetches.filterMap id <;> simp [h, exceptOk]
  · unfold P5A.assetPhase
    cases h : logoFetch.toList ++ sceneFetches.filterMap id <;> simp [h, exceptOk]
  · cases musicFetch <;> rfl

/-- Claim C9 (counterexample): `processNextJob` in `server.js` writes
`progress = 10` at claim time and `progress = 0` in the failure write, so
for a job failing in the download phase the progress sequence decreases. -/
theorem progress_regression_cex :
    ServerV1.writes false true true = [("PROCESSING_RENDER", 10), ("FAILED", 0)] ∧
    nondecreasing ((ServerV1.writes false true true).map Prod.snd) = false := by
  exact ⟨rfl, rfl⟩

/-- Claim C9 (amended): every progress value `processNextJob` writes is an
integer in 0–100, and on the success path the sequence 10, 50, 100 is
monotonically non-decreasing; any failure, however, ends the sequence with
a `FAILED` write carrying progress 0, which is lower than the preceding
write. -/
theorem progress_writes_profile : ∀ downloadOk encodeOk publishOk : Bool,
    (ServerV1.writes downloadOk encodeOk publishOk).all
      (fun w => decide (w.2 ≤ 100)) = true ∧
    (ServerV1.writes downloadOk encodeOk publishOk).getLast? =
      some (if downloadOk && encodeOk && publishOk then ("RENDERING_COMPLETE", 100)
            else ("FAILED", 0)) ∧
    nondecreasing ((ServerV1.writes true true true).map Prod.snd) = true := by
  decide

/-- If no read ever observes a ready record, the polling loop exhausts its
budget: it performs exactly `rem` reads and `rem` sleeps and finds no
record. -/
theorem pollLoop_never_ready (store : Nat → Option JobRecord)
    (h : ∀ k, P5A.sceneReady (store k) = false) :
    ∀ rem i, P5A.pollLoop store i rem = (none, rem, rem) := by
  intro rem
  induction rem with
  | zero => intro i; rfl
  | succ n ih =>
    intro i
    unfold P5A.pollLoop
    simp [h i, ih (i + 1)]

/-- Claim C5: when the manifest never becomes ready, the readiness loop of
`part_005` re-reads the job record exactly `attempts` times, sleeping the
poll interval after every failed attempt, then yields the timeout error;
the job's failure write is `FAILED` with the readiness-timeout message;
and the readiness-timeout kind is distinct from the download and encoding
error kinds. -/
theorem readiness_timeout_behaviour (store : Nat → Option JobRecord) (attempts : Nat)
    (h : ∀ k, P5A.sceneReady (store k) = false) :
    (P5A.pollLoop store 0 attempts).2.1 = attempts ∧
    (P5A.pollLoop store 0 attempts).2.2 = attempts ∧
    P5A.awaitReadiness store attempts = .error .timedOutWaitingScenes ∧
    P5A.catchUpdate (JobError.message .timedOutWaitingScenes) =
      { status := "FAILED",
        error_message := "Timed out waiting for scenes in script_data" } ∧
    JobError.isDownloadFailure .timedOutWaitingScenes = false ∧
    JobError.isEncodingFailure .timedOutWaitingScenes = false ∧
    P5A.maxAttempts = 30 := by
  have hp := pollLoop_never_ready store h attempts 0
  refine ⟨by rw [hp], by rw [hp], ?_, rfl, rfl, rfl, rfl⟩
  unfold P5A.awaitReadiness
  rw [hp]

/-- Witness for `readiness_timeout_behaviour` at a store that always returns
no record, with a budget of 3 attempts (the spec's scenario). -/
theorem readiness_timeout_behaviour_witness :
    (P5A.pollLoop (fun _ => none) 0 3).2.1 = 3 ∧
    (P5A.pollLoop (fun _ => none) 0 3).2.2 = 3 ∧
    P5A.awaitReadiness (fun _ => none) 3 = .error .timedOutWaitingScenes ∧
    P5A.catchUpdate (JobError.message .timedOutWaitingScenes) =
      { status := "FAILED",
        error_message := "Timed out waiting for scenes in script_data" } ∧
    JobError.isDownloadFailure .timedOutWaitingScenes = false ∧
    JobError.isEncodingFailure .timedOutWaitingScenes = false ∧
    P5A.maxAttempts = 30 :=
  readiness_timeout_behaviour (fun _ => none) 3 (fun _ => rfl)

/-- Claim C4 (counterexample): the readiness checks do not coincide with the
spec's render-ready predicate in either direction — a manifest with a
single fully resolved scene is render-ready by the spec's words but the
`part_005` second-document gate rejects it (it requires more than one
scene), and a manifest whose only scene has no resolved media reference is
not render-ready but the first-document gate accepts it (it only counts
scenes). -/
theorem readiness_gate_iff_cex :
    specRenderReady { scenes := some [{ video_url := some "https://x.co/v.mp4" }] } = true ∧
    P5B.sceneReady (some { scenes := some [{ video_url := some "https://x.co/v.mp4" }] }) = false ∧
    P5A.sceneReady (some { script_data := some { scenes := some [{ video_url := none }] } }) = true ∧
    specRenderReady { scenes := some [{ video_url := none }] } = false := by
  refine ⟨rfl, rfl, rfl, rfl⟩

/-- Claim C4 (amended): the first-document gate of `part_005` reports a
record render-ready exactly when its parsed `scenes` sequence is non-empty,
without inspecting the resolved media references; the second-document gate
reports a manifest ready exactly when it is render-ready in the spec's
sense *and* has more than one scene; consequently a manifest with an empty
`scenes` sequence is never reported ready by either gate. -/
theorem readiness_gate_characterization (m : Manifest) :
    P5A.sceneReady (some { script_data := some m }) = decide (0 < scenesCount m) ∧
    P5B.sceneReady (some m) = (specRenderReady m && !(scenesCount m == 1)) ∧
    P5A.sceneReady (some { script_data := some { scenes := some [] } }) = false ∧
    P5B.sceneReady (some { scenes := some [] }) = false := by
  refine ⟨?_, ?_, rfl, rfl⟩
  · unfold P5A.sceneReady scenesCount
    cases hs : m.scenes with
    | none => simp [hs]
    | some l => simp [hs]
  · unfold P5B.sceneReady specRenderReady scenesCount
    cases hs : m.scenes with
    | none => simp [hs]
    | some l =>
      cases l with
      | nil => simp [hs]
      | cons a t =>
        cases hall : (a :: t).all (fun s => truthyStr s.video_url) with
        | false => simp [hs, hall]
        | true =>
          simp only [hs, Option.getD_some, hall, Bool.and_true, Bool.true_and,
            List.isEmpty_cons, Bool.not_false]
          cases t with
          | nil => rfl
          | cons b u => simp

/-- Claim C8 (counterexample): the failure write built by `updateJobStatus`
(`server.js`) stores no error summary at all when the underlying message is
the empty string — the JavaScript truthiness test maps it to null — so the
stored summary is not non-empty for every fatal error; moreover the
`part_005` failure path stores the raw message without truncation, so a
600-character message is stored at length 600, above the 500-character
truncation bound used by `updateJobStatus`. -/
theorem error_summary_unbounded_cex :
    (ServerV1.updateJobStatus "FAILED" 0 (some "") none).error_message = none ∧
    (P5A.catchUpdate (String.mk (List.replicate 600 'e'))).error_message =
      String.mk (List.replicate 600 'e') ∧
    (String.mk (List.replicate 600 'e')).length = 600 := by
  refine ⟨rfl, rfl, ?_⟩
  show (List.replicate 600 'e').length = 600
  rw [List.length_replicate]

/-- Claim C8 (amended): for every fatal error whose message is non-empty, the
summary stored by `server.js`'s `updateJobStatus` alongside the `FAILED`
status is the message truncated to its first 500 characters, hence
non-empty and of length at most 500; the `part_005` failure path, in
contrast, stores the message verbatim, so there the stored length is
bounded only by the message itself. -/
theorem error_summary_truncation (m : String) (h : m ≠ "") :
    (ServerV1.updateJobStatus "FAILED" 0 (some m) none).error_message =
      some (jsSubstringTo m 500) ∧
    (jsSubstringTo m 500).length ≠ 0 ∧
    (jsSubstringTo m 500).length ≤ 500 ∧
    (P5A.catchUpdate m).error_message = m := by
  have hd : m.data ≠ [] := by
    intro hnil
    apply h
    cases m with
    | mk l => cases hnil; rfl
  refine ⟨?_, ?_, ?_, rfl⟩
  · have hb : (m == "") = false := beq_eq_false_iff_ne.mpr h
    simp [ServerV1.updateJobStatus, hb]
  · have : (m.data.take 500).length = min 500 m.data.length := List.length_take ..
    simp only [jsSubstringTo, String.length, this]
    have hpos : 0 < m.data.length := List.length_pos.mpr hd
    omega
  · have : (m.data.take 500).length = min 500 m.data.length := List.length_take ..
    simp only [jsSubstringTo, String.length, this]
    omega

/-- Witness for `error_summary_truncation` at the concrete message
`"FFmpeg error 1"`. -/
theorem error_summary_truncation_witness :
    (ServerV1.updateJobStatus "FAILED" 0 (some "FFmpeg error 1") none).error_message =
      some (jsSubstringTo "FFmpeg error 1" 500) ∧
    (jsSubstringTo "FFmpeg error 1" 500).length ≠ 0 ∧
    (jsSubstringTo "FFmpeg error 1" 500).length ≤ 500 ∧
    (P5A.catchUpdate "FFmpeg error 1").error_message = "FFmpeg error 1" :=
  error_summary_truncation "FFmpeg error 1" (by decide)

/-- A string starting with `"http"` is neither the literal `"null"` nor
empty. -/
theorem ne_null_of_starts_http (s : String) (h : jsStartsWith s "http" = true) :
    (s == "null") = false ∧ (s == "") = false := by
  refine ⟨?_, ?_⟩ <;> rw [beq_eq_false_iff_ne] <;> rintro rfl <;> revert h <;> decide

/-- Claim C6: resolving an already-absolute URL that is already canonical —
it starts with the scheme, the double-nesting test finds no second scheme
marker at a positive offset, and it is a fixed point of the
percent-normalization — returns it unchanged, for both `ensureFullUrl`
(`part_005`) and `getSafeUrl` (`server.js`); resolution is therefore
idempotent on such URLs. -/
theorem resolve_idempotent (u b s : String)
    (habs : jsStartsWith s "http" = true)
    (hnest : doubleNested s = false)
    (hcanon : encodeURI (decodeURI s) = s)
    (hcanon2 : encodeURI s = s) :
    ensureFullUrl u (some s) b = some s ∧
    ensureFullUrl u (ensureFullUrl u (some s) b) b = ensureFullUrl u (some s) b ∧
    getSafeUrl u (some s) = some s ∧
    getSafeUrl u (getSafeUrl u (some s)) = getSafeUrl u (some s) := by
  have hne := ne_null_of_starts_http s habs
  have h1 : ensureFullUrl u (some s) b = some s := by
    unfold ensureFullUrl
    simp [hne.1, hne.2, habs, hnest, hcanon]
  have h2 : getSafeUrl u (some s) = some s := by
    unfold getSafeUrl
    simp [hne.2, habs, hcanon2]
  refine ⟨h1, ?_, h2, ?_⟩
  · rw [h1]; exact h1
  · rw [h2]; exact h2

/-- Witness for `resolve_idempotent` at a concrete canonical absolute URL. -/
theorem resolve_idempotent_witness :
    ensureFullUrl "https://supa.example" (some "https://x.co/a.mp4") "generated-content" =
      some "https://x.co/a.mp4" ∧
    ensureFullUrl "https://supa.example"
        (ensureFullUrl "https://supa.example" (some "https://x.co/a.mp4") "generated-content")
        "generated-content" =
      ensureFullUrl "https://supa.example" (some "https://x.co/a.mp4") "generated-content" ∧
    getSafeUrl "https://supa.example" (some "https://x.co/a.mp4") =
      some "https://x.co/a.mp4" ∧
    getSafeUrl "https://supa.example"
        (getSafeUrl "https://supa.example" (some "https://x.co/a.mp4")) =
      getSafeUrl "https://supa.example" (some "https://x.co/a.mp4") :=
  resolve_idempotent "https://supa.example" "generated-content" "https://x.co/a.mp4"
    (by decide) (by decide) (by decide) (by decide)

/-- Claim C7 (counterexample): on a reference containing the scheme marker at
three offsets (0, 14 and 28), the resolver keeps the suffix from the
*last* occurrence (`https://c.co/z.mp4`), not the canonicalization of the
suffix from the second occurrence (`https://b.co/yhttps://c.co/z.mp4`),
so the claim as stated fails. -/
theorem double_nested_second_occurrence_cex :
    (occIndexes "https://a.co/xhttps://b.co/yhttps://c.co/z.mp4" "https://")[1]? =
      some 14 ∧
    ensureFullUrl "https://supa.example"
        (some "https://a.co/xhttps://b.co/yhttps://c.co/z.mp4") "generated-content" =
      some "https://c.co/z.mp4" ∧
    encodeURI (decodeURI
        (jsSubstringFrom "https://a.co/xhttps://b.co/yhttps://c.co/z.mp4" 14)) =
      "https://b.co/yhttps://c.co/z.mp4" ∧
    ensureFullUrl "https://supa.example"
        (some "https://a.co/xhttps://b.co/yhttps://c.co/z.mp4") "generated-content" ≠
      some (encodeURI (decodeURI
        (jsSubstringFrom "https://a.co/xhttps://b.co/yhttps://c.co/z.mp4" 14))) := by
  refine ⟨by decide, by decide, by decide, by decide⟩

/-- Claim C7 (amended): for every reference that begins with an absolute-URL
scheme and whose double-nesting test fires (a scheme marker occurs at a
positive offset), the resolver returns the canonicalization of exactly the
suffix starting at the *last* occurrence of the scheme marker, discarding
everything before it. -/
theorem double_nested_repair (u b s : String)
    (habs : jsStartsWith s "http" = true)
    (hnest : doubleNested s = true) :
    ensureFullUrl u (some s) b =
      some (encodeURI (decodeURI
        (jsSubstringFrom s (jsLastIndexOf s "https://").toNat))) := by
  have hne := ne_null_of_starts_http s habs
  unfold ensureFullUrl
  simp [hne.1, hne.2, habs, hnest]

/-- Witness for `double_nested_repair` at a concrete double-nested
reference. -/
theorem double_nested_repair_witness :
    ensureFullUrl "https://supa.example" (some "https://a.co/xhttps://b.co/y.mp4")
        "generated-content" =
      some (encodeURI (decodeURI
        (jsSubstringFrom "https://a.co/xhttps://b.co/y.mp4"
          (jsLastIndexOf "https://a.co/xhttps://b.co/y.mp4" "https://").toNat))) :=
  double_nested_repair "https://supa.example" "generated-content"
    "https://a.co/xhttps://b.co/y.mp4" (by decide) (by decide)

/-- Membership in the `part_005` filter program. -/
theorem P5A_mem_filterProgram {n : Nat} {music : Bool} {st : FilterStmt} :
    st ∈ P5A.filterProgram n music ↔
      (∃ i, i < n ∧ st ∈ P5A.clipStmts i) ∨ st = P5A.concatStmt n ∨
        (music = true ∧ st = P5A.mixStmt n) := by
  unfold P5A.filterProgram
  cases music <;>
    simp [List.mem_append, List.mem_flatMap, List.mem_range]

/-- `v_out` is consumed by no statement of the `part_005` program. -/
theorem P5A_consumed_vOut (n : Nat) (music : Bool) :
    consumedIn (P5A.filterProgram n music) PadName.vOut = false := by
  rw [← Bool.not_eq_true, consumedIn_iff]
  rintro ⟨st, hst, hp⟩
  rcases P5A_mem_filterProgram.mp hst with ⟨i, _, hci⟩ | rfl | ⟨_, rfl⟩
  · simp [P5A.clipStmts] at hci
    rcases hci with rfl | rfl | rfl <;> simp at hp
  · simp [P5A.concatStmt] at hp
  · simp [P5A.mixStmt] at hp

/-- `final_a` is consumed by no statement of the `part_005` program. -/
theorem P5A_consumed_finalA (n : Nat) (music : Bool) :
    consumedIn (P5A.filterProgram n music) PadName.finalA = false := by
  rw [← Bool.not_eq_true, consumedIn_iff]
  rintro ⟨st, hst, hp⟩
  rcases P5A_mem_filterProgram.mp hst with ⟨i, _, hci⟩ | rfl | ⟨_, rfl⟩
  · simp [P5A.clipStmts] at hci
    rcases hci with rfl | rfl | rfl <;> simp at hp
  · simp [P5A.concatStmt] at hp
  · simp [P5A.mixStmt] at hp

/-- Without music, `a_out` is consumed by no statement of the `part_005`
program. -/
theorem P5A_consumed_aOut_noMusic (n : Nat) :
    consumedIn (P5A.filterProgram n false) PadName.aOut = false := by
  rw [← Bool.not_eq_true, consumedIn_iff]
  rintro ⟨st, hst, hp⟩
  rcases P5A_mem_filterProgram.mp hst with ⟨i, _, hci⟩ | rfl | ⟨hm, _⟩
  · simp [P5A.clipStmts] at hci
    rcases hci with rfl | rfl | rfl <;> simp at hp
  · simp [P5A.concatStmt] at hp
  · exact Bool.noConfusion hm

/-- With music, `a_out` is consumed (by the mix statement). -/
theorem P5A_consumed_aOut_music (n : Nat) :
    consumedIn (P5A.filterProgram n true) PadName.aOut = true := by
  rw [consumedIn_iff]
  refine ⟨P5A.mixStmt n, P5A_mem_filterProgram.mpr (Or.inr (Or.inr ⟨rfl, rfl⟩)), ?_⟩
  simp [P5A.mixStmt]

/-- Each `v{i}`, `i < n`, is consumed (by the concat statement). -/
theorem P5A_consumed_v (n : Nat) (music : Bool) (i : Nat) (hi : i < n) :
    consumedIn (P5A.filterProgram n music) (PadName.v i) = true := by
  rw [consumedIn_iff]
  refine ⟨P5A.concatStmt n, P5A_mem_filterProgram.mpr (Or.inr (Or.inl rfl)), ?_⟩
  exact List.mem_append_left _ (List.mem_map_of_mem _ (List.mem_range.mpr hi))

/-- Each `a{i}`, `i < n`, is consumed (by the concat statement). -/
theorem P5A_consumed_a (n : Nat) (music : Bool) (i : Nat) (hi : i < n) :
    consumedIn (P5A.filterProgram n music) (PadName.a i) = true := by
  rw [consumedIn_iff]
  refine ⟨P5A.concatStmt n, P5A_mem_filterProgram.mpr (Or.inr (Or.inl rfl)), ?_⟩
  exact List.mem_append_right _ (List.mem_map_of_mem _ (List.mem_range.mpr hi))

/-- Each `a{i}_silent`, `i < n`, is consumed (by clip `i`'s one-input mix
statement). -/
theorem P5A_consumed_aSilent (n : Nat) (music : Bool) (i : Nat) (hi : i < n) :
    consumedIn (P5A.filterProgram n music) (PadName.aSilent i) = true := by
  rw [consumedIn_iff]
  refine ⟨{ consumes := [.rawA i, .aSilent i], produces := [.a i],
            text := "amix=inputs=1:duration=first" },
    P5A_mem_filterProgram.mpr (Or.inl ⟨i, hi, by simp [P5A.clipStmts]⟩), by simp⟩

/-- The pads produced across the `part_005` program, in order. -/
theorem P5A_produces (n : Nat) (music : Bool) :
    (P5A.filterProgram n music).flatMap FilterStmt.produces =
      ((List.range n).flatMap fun i => [PadName.v i, PadName.aSilent i, PadName.a i]) ++
        ([PadName.vOut, PadName.aOut] ++ (if music then [PadName.finalA] else [])) := by
  unfold P5A.filterProgram
  cases music <;>
    simp [List.flatMap_append, List.flatMap_assoc, P5A.clipStmts, P5A.concatStmt,
      P5A.mixStmt]

/-- `terminalPadsOfKind` as one filter over the produced pads. -/
theorem terminalPadsOfKind_eq (prog : List FilterStmt) (k : PadKind) :
    terminalPadsOfKind prog k =
      (prog.flatMap FilterStmt.produces).filter
        (fun p => (p.kind == k) && !consumedIn prog p) := by
  unfold terminalPadsOfKind terminalPads
  rw [List.filter_filter]

/-- The `part_005` program's only terminal video pad is `v_out`. -/
theorem P5A_terminal_video (n : Nat) (music : Bool) :
    terminalPadsOfKind (P5A.filterProgram n music) PadKind.video = [PadName.vOut] := by
  rw [terminalPadsOfKind_eq, P5A_produces, List.filter_append]
  have h1 : ((List.range n).flatMap fun i =>
        [PadName.v i, PadName.aSilent i, PadName.a i]).filter
      (fun p => (p.kind == PadKind.video) &&
        !consumedIn (P5A.filterProgram n music) p) = [] := by
    rw [List.filter_eq_nil_iff]
    intro p hp
    rw [List.mem_flatMap] at hp
    obtain ⟨i, hi, hmem⟩ := hp
    rw [List.mem_range] at hi
    simp only [List.mem_cons, List.not_mem_nil, or_false] at hmem
    rcases hmem with rfl | rfl | rfl
    · simp [P5A_consumed_v n music i hi]
    · simp [PadName.kind]
    · simp [PadName.kind]
  rw [h1]
  cases music <;>
    simp [List.filter_append, List.filter_cons, List.filter_nil, PadName.kind,
      P5A_consumed_vOut]

/-- The `part_005` program's only terminal audio pad is `final_a` with music
and `a_out` without. -/
theorem P5A_terminal_audio (n : Nat) (music : Bool) :
    terminalPadsOfKind (P5A.filterProgram n music) PadKind.audio =
      [if music then PadName.finalA else PadName.aOut] := by
  rw [terminalPadsOfKind_eq, P5A_produces, List.filter_append]
  have h1 : ((List.range n).flatMap fun i =>
        [PadName.v i, PadName.aSilent i, PadName.a i]).filter
      (fun p => (p.kind == PadKind.audio) &&
        !consumedIn (P5A.filterProgram n music) p) = [] := by
    rw [List.filter_eq_nil_iff]
    intro p hp
    rw [List.mem_flatMap] at hp
    obtain ⟨i, hi, hmem⟩ := hp
    rw [List.mem_range] at hi
    simp only [List.mem_cons, List.not_mem_nil, or_false] at hmem
    rcases hmem with rfl | rfl | rfl
    · simp [PadName.kind]
    · simp [P5A_consumed_aSilent n music i hi]
    · simp [P5A_consumed_a n music i hi]
  rw [h1]
  cases music with
  | false =>
    simp [List.filter_append, List.filter_cons, List.filter_nil, PadName.kind,
      P5A_consumed_aOut_noMusic]
  | true =>
    simp [List.filter_append, List.filter_cons, List.filter_nil, PadName.kind,
      P5A_consumed_aOut_music, P5A_consumed_finalA]

/-- Membership in the `server.js` (second document) filter program. -/
theorem ServerV2_mem_filterProgram {n : Nat} {st : FilterStmt} :
    st ∈ ServerV2.filterProgram n ↔
      (∃ i, i < n ∧ st ∈ ServerV2.clipStmts i) ∨ st = ServerV2.concatStmt n := by
  unfold ServerV2.filterProgram
  simp [List.mem_append, List.mem_flatMap, List.mem_range]

/-- The pads produced across the `server.js` (second document) program. -/
theorem ServerV2_produces (n : Nat) :
    (ServerV2.filterProgram n).flatMap FilterStmt.produces =
      ((List.range n).flatMap fun i => [PadName.v i]) ++ [PadName.vOut] := by
  unfold ServerV2.filterProgram
  simp [List.flatMap_append, List.flatMap_assoc, ServerV2.clipStmts, ServerV2.concatStmt]

/-- `v_out` is consumed by no statement of the `server.js` (second document)
program. -/
theorem ServerV2_consumed_vOut (n : Nat) :
    consumedIn (ServerV2.filterProgram n) PadName.vOut = false := by
  rw [← Bool.not_eq_true, consumedIn_iff]
  rintro ⟨st, hst, hp⟩
  rcases ServerV2_mem_filterProgram.mp hst with ⟨i, _, hci⟩ | rfl
  · simp [ServerV2.clipStmts] at hci
    subst hci
    simp at hp
  · simp [ServerV2.concatStmt] at hp

/-- Each `v{i}`, `i < n`, is consumed by the `server.js` concat statement. -/
theorem ServerV2_consumed_v (n : Nat) (i : Nat) (hi : i < n) :
    consumedIn (ServerV2.filterProgram n) (PadName.v i) = true := by
  rw [consumedIn_iff]
  refine ⟨ServerV2.concatStmt n, ServerV2_mem_filterProgram.mpr (Or.inr rfl), ?_⟩
  exact List.mem_map_of_mem _ (List.mem_range.mpr hi)

/-- The `server.js` (second document) program's only terminal video pad is
`v_out`. -/
theorem ServerV2_terminal_video (n : Nat) :
    terminalPadsOfKind (ServerV2.filterProgram n) PadKind.video = [PadName.vOut] := by
  rw [terminalPadsOfKind_eq, ServerV2_produces, List.filter_append]
  have h1 : ((List.range n).flatMap fun i => [PadName.v i]).filter
      (fun p => (p.kind == PadKind.video) &&
        !consumedIn (ServerV2.filterProgram n) p) = [] := by
    rw [List.filter_eq_nil_iff]
    intro p hp
    rw [List.mem_flatMap] at hp
    obtain ⟨i, hi, hmem⟩ := hp
    rw [List.mem_range] at hi
    simp only [List.mem_cons, List.not_mem_nil, or_false] at hmem
    subst hmem
    simp [ServerV2_consumed_v n i hi]
  rw [h1]
  simp [List.filter_cons, List.filter_nil, PadName.kind, ServerV2_consumed_vOut]

/-- The `server.js` (second document) program declares no audio pad at all,
so it has no terminal audio pad. -/
theorem ServerV2_terminal_audio (n : Nat) :
    terminalPadsOfKind (ServerV2.filterProgram n) PadKind.audio = [] := by
  rw [terminalPadsOfKind_eq, ServerV2_produces, List.filter_append]
  have h1 : ((List.range n).flatMap fun i => [PadName.v i]).filter
      (fun p => (p.kind == PadKind.audio) &&
        !consumedIn (ServerV2.filterProgram n) p) = [] := by
    rw [List.filter_eq_nil_iff]
    intro p hp
    rw [List.mem_flatMap] at hp
    obtain ⟨i, hi, hmem⟩ := hp
    simp only [List.mem_cons, List.not_mem_nil, or_false] at hmem
    subst hmem
    simp [PadName.kind]
  rw [h1]
  simp [List.filter_cons, List.filter_nil, PadName.kind]

/-- Claim C1 (counterexample): the `server.js` compiler (second document)
declares no terminal audio pad at all — its concat uses `a=1` nowhere —
and with no music track it maps only `[v_out]`, so the compiled program
does not have exactly one terminal audio pad mapped to the encoder
output.  The `part_005` compiler at the same input, by contrast, does
declare the terminal audio pad `a_out`. -/
theorem terminal_audio_missing_cex :
    terminalPadsOfKind (ServerV2.filterProgram 1) PadKind.audio = [] ∧
    ServerV2.mapPads 1 false = [PadName.vOut] ∧
    ((ServerV2.mapPads 1 false).filter (fun p => p.kind == PadKind.audio)) = [] ∧
    terminalPadsOfKind (P5A.filterProgram 1 false) PadKind.audio = [PadName.aOut] := by
  refine ⟨?_, rfl, rfl, ?_⟩ <;> decide

/-- Claim C1 (amended): for every non-empty list of materialized clips, with
or without music, the `part_005` compiler's program declares exactly one
terminal video pad (`v_out`) and exactly one terminal audio pad (`final_a`
with music, `a_out` without), and maps exactly these two pads to the
encoder output; the `server.js` (second document) compiler declares
exactly one terminal video pad and *no* terminal audio pad — it maps the
terminal video pad together with the raw music input stream when music is
present, and the terminal video pad alone when it is not. -/
theorem terminal_pads_profile (n : Nat) (music : Bool) (h : 1 ≤ n) :
    terminalPadsOfKind (P5A.filterProgram n music) PadKind.video = [PadName.vOut] ∧
    terminalPadsOfKind (P5A.filterProgram n music) PadKind.audio =
      [if music then PadName.finalA else PadName.aOut] ∧
    P5A.mapPads music =
      [PadName.vOut, if music then PadName.finalA else PadName.aOut] ∧
    terminalPadsOfKind (ServerV2.filterProgram n) PadKind.video = [PadName.vOut] ∧
    terminalPadsOfKind (ServerV2.filterProgram n) PadKind.audio = [] ∧
    ServerV2.mapPads n music =
      (if music then [PadName.vOut, PadName.rawA n] else [PadName.vOut]) := by
  refine ⟨P5A_terminal_video n music, P5A_terminal_audio n music, ?_,
    ServerV2_terminal_video n, ServerV2_terminal_audio n, rfl⟩
  cases music <;> rfl

/-- Witness for `terminal_pads_profile` at two clips with music. -/
theorem terminal_pads_profile_witness :
    terminalPadsOfKind (P5A.filterProgram 2 true) PadKind.video = [PadName.vOut] ∧
    terminalPadsOfKind (P5A.filterProgram 2 true) PadKind.audio =
      [if true then PadName.finalA else PadName.aOut] ∧
    P5A.mapPads true =
      [PadName.vOut, if true then PadName.finalA else PadName.aOut] ∧
    terminalPadsOfKind (ServerV2.filterProgram 2) PadKind.video = [PadName.vOut] ∧
    terminalPadsOfKind (ServerV2.filterProgram 2) PadKind.audio = [] ∧
    ServerV2.mapPads 2 true =
      (if true then [PadName.vOut, PadName.rawA 2] else [PadName.vOut]) :=
  terminal_pads_profile 2 true (by decide)
